import Mathlib

/-!
Verification of the LTV-CHURN prediction pipeline
(`src/Ml2/src/prediction_engine.py`, `src/Ml2/src/model_loader.py`,
`src/Ml2/src/feature_engineering.py`), shallowly embedded over ℚ.

Python floats are modelled as exact rationals.  `round(x, n)` (and
NumPy's `.round(n)`) are modelled by `round4` / `round2` below as
rounding to the nearest multiple of 10^-n with halves up; Python rounds
halves to even, but the two differ only at exact ties, which none of the
inputs used in the statements below hit.
-/

namespace LtvChurn

/-- Python `round(x, 4)`: round to 4 decimal places. -/
def round4 (x : ℚ) : ℚ := (⌊10000 * x + 1/2⌋ : ℚ) / 10000

/-- Python `round(x, 2)`: round to 2 decimal places. -/
def round2 (x : ℚ) : ℚ := (⌊100 * x + 1/2⌋ : ℚ) / 100

/-- NumPy / pandas `clip(x, lo, hi)` = `min(max(x, lo), hi)`. -/
def clip (lo hi x : ℚ) : ℚ := min (max x lo) hi

/-- A raw feature dictionary (`features_dict` in the engine): an
association list of field name to numeric value, first binding wins,
mirroring a Python dict with `.get`. -/
def FeatDict : Type := List (String × ℚ)

/-- Python `features_dict.get(name, 0)`. -/
def dictGet (d : FeatDict) (n : String) : ℚ := (List.lookup n d).getD 0

/-- Embeds `PredictionEngine._prepare_features` (prediction_engine.py:163-174):
for each expected feature name in order, take the dict value if present,
else 0; the resulting single-row frame is represented by its row. -/
def prepareFeatures (d : FeatDict) (feature_names : List String) : List ℚ :=
  feature_names.map (fun n => dictGet d n)

/-- One entry of the `feature_importance` list built by
`PredictionEngine._calculate_feature_importance`
(prediction_engine.py:176-201). -/
structure FIEntry where
  feature_name : String
  feature_value : ℚ
  importance_score : ℚ
  rank : ℕ
deriving DecidableEq

/-- Insert an entry into a list that is sorted by descending
`importance_score`, before the first entry of smaller-or-equal score.
Folding this over the original list from the right reproduces a stable
descending sort, i.e. Python's `list.sort(key=score, reverse=True)`:
equal scores keep their original relative order. -/
def insertByScore (e : FIEntry) : List FIEntry → List FIEntry
  | [] => [e]
  | f :: fs =>
    if f.importance_score ≤ e.importance_score then e :: f :: fs
    else f :: insertByScore e fs

/-- Stable sort by descending `importance_score`
(`feature_importance.sort(key=lambda x: x['importance_score'], reverse=True)`). -/
def sortByScoreDesc (l : List FIEntry) : List FIEntry := l.foldr insertByScore []

/-- The enriched entry list before sorting: `zip(feature_names,
importances)` enumerated, with `feature_value` read from column i of the
single-row frame `X` and `rank := i + 1` assigned in enumeration order
(prediction_engine.py:190-197). -/
def mkEntries (feature_names : List String) (imps : List ℚ) (xrow : List ℚ) :
    List FIEntry :=
  ((feature_names.zip imps).enum).map (fun p =>
    { feature_name := p.2.1
      feature_value := xrow.getD p.1 0
      importance_score := round4 p.2.2
      rank := p.1 + 1 })

/-- Embeds `PredictionEngine._calculate_feature_importance`: empty when the
model has no `feature_importances_` attribute (modelled as `none`);
otherwise the enriched entries sorted by descending score, truncated to
the default `top_n = 10`. -/
def calculateFeatureImportance (importances : Option (List ℚ))
    (feature_names : List String) (xrow : List ℚ) : List FIEntry :=
  match importances with
  | none => []
  | some imps => (sortByScoreDesc (mkEntries feature_names imps xrow)).take 10

/-- The input-independent components of an importance entry: name, score
and rank (everything except `feature_value`). -/
def projFI (e : FIEntry) : String × ℚ × ℕ := (e.feature_name, e.importance_score, e.rank)

/-- The `risk_level` labels assigned by `predict_churn`. -/
inductive RiskLevel | HIGH | MEDIUM | LOW
deriving DecidableEq

/-- The `ltv_category` labels assigned by `predict_ltv`. -/
inductive LtvCategory | HIGH | MEDIUM | LOW | ZERO
deriving DecidableEq

/-- The loaded churn classifier artifact, reduced to the capabilities the
engine uses: `predict_proba(X)[0, 1]` (class-1 probability of the single
row), `predict(X)[0]` (the label), and the optional
`feature_importances_` attribute. -/
structure ChurnModel where
  predictProba : List ℚ → ℚ
  predictLabel : List ℚ → ℤ
  featureImportances : Option (List ℚ)

/-- The loaded LTV regressor artifact: `predict(X)[0]` and the optional
`feature_importances_` attribute. -/
structure LtvModel where
  predictValue : List ℚ → ℚ
  featureImportances : Option (List ℚ)

/-- The fitted scaler's `transform`, acting on the single row. -/
def Scaler : Type := List ℚ → List ℚ

/-- The dict returned by `predict_churn` (prediction_engine.py:58-66);
`predicted_at` (`datetime.now().isoformat()`) is modelled as an abstract
timestamp supplied by the ambient clock at call time. -/
structure ChurnResult where
  prediction : ℤ
  probability : ℚ
  risk_level : RiskLevel
  confidence_score : ℚ
  feature_importance : List FIEntry
  model_version : String
  predicted_at : ℕ
deriving DecidableEq

/-- The dict returned by `predict_ltv` (prediction_engine.py:115-121). -/
structure LtvResult where
  ltv_value : ℚ
  ltv_category : LtvCategory
  feature_importance : List FIEntry
  model_version : String
  predicted_at : ℕ
deriving DecidableEq

/-- Embeds `PredictionEngine.predict_churn` (prediction_engine.py:20-73): align
the dict to the churn feature order, scale, read the class-1 probability
and the label, bucket the probability into a risk level, and assemble
the result (floats reported rounded to 4 decimals). -/
def predictChurn (model : ChurnModel) (scaler : Scaler)
    (feature_names : List String) (model_version : String)
    (features_dict : FeatDict) (now : ℕ) : ChurnResult :=
  let X := prepareFeatures features_dict feature_names
  let X_scaled := scaler X
  let probability := model.predictProba X_scaled
  { prediction := model.predictLabel X_scaled
    probability := round4 probability
    risk_level :=
      if probability ≥ 7/10 then RiskLevel.HIGH
      else if probability ≥ 4/10 then RiskLevel.MEDIUM
      else RiskLevel.LOW
    confidence_score := round4 (max probability (1 - probability))
    feature_importance :=
      calculateFeatureImportance model.featureImportances feature_names X
    model_version := model_version
    predicted_at := now }

/-- Embeds `PredictionEngine.predict_ltv` (prediction_engine.py:75-128): align,
scale, predict, clamp the value to be non-negative, bucket it into a
category, and assemble the result (value reported rounded to 2 decimals). -/
def predictLtv (model : LtvModel) (scaler : Scaler)
    (feature_names : List String) (model_version : String)
    (features_dict : FeatDict) (now : ℕ) : LtvResult :=
  let X := prepareFeatures features_dict feature_names
  let X_scaled := scaler X
  let ltv_value := max (model.predictValue X_scaled) 0
  { ltv_value := round2 ltv_value
    ltv_category :=
      if ltv_value ≥ 500 then LtvCategory.HIGH
      else if ltv_value ≥ 200 then LtvCategory.MEDIUM
      else if ltv_value > 0 then LtvCategory.LOW
      else LtvCategory.ZERO
    feature_importance :=
      calculateFeatureImportance model.featureImportances feature_names X
    model_version := model_version
    predicted_at := now }

/-- One element of the list returned by `predict_batch`
(prediction_engine.py:148-158): either a success dict
`{user_id, churn, ltv}` or an error dict `{user_id, error}`.  `υ` is the
type of `user_id` values, `γ`/`δ` the churn/LTV result types. -/
inductive BatchEntry (υ γ δ : Type) where
  | ok (user_id : Option υ) (churn : γ) (ltv : δ)
  | err (user_id : Option υ) (msg : String)
deriving DecidableEq

/-- The body of the `predict_batch` loop for one record: run the churn
prediction then the LTV prediction; if either raises (`Except.error`),
produce the error entry carrying `record.get('user_id')`. -/
def processRecord {ρ υ γ δ : Type} (uid : ρ → Option υ)
    (pc : ρ → Except String γ) (pl : ρ → Except String δ) (r : ρ) :
    BatchEntry υ γ δ :=
  match pc r with
  | Except.error e => BatchEntry.err (uid r) e
  | Except.ok c =>
    match pl r with
    | Except.error e => BatchEntry.err (uid r) e
    | Except.ok l => BatchEntry.ok (uid r) c l

/-- Embeds `PredictionEngine.predict_batch` (prediction_engine.py:130-161): loop
over the records in order, appending one result entry per record; the
per-record `try/except` is modelled by the prediction functions
returning `Except`.  `uid` extracts `user_id` from a record; `pc`/`pl`
are the engine's own `predict_churn`/`predict_ltv` applied to a record. -/
def predictBatch {ρ υ γ δ : Type} (uid : ρ → Option υ)
    (pc : ρ → Except String γ) (pl : ρ → Except String δ) :
    List ρ → List (BatchEntry υ γ δ)
  | [] => []
  | r :: rest =>
    (match pc r with
     | Except.error e => BatchEntry.err (uid r) e
     | Except.ok c =>
       match pl r with
       | Except.error e => BatchEntry.err (uid r) e
       | Except.ok l => BatchEntry.ok (uid r) c l)
    :: predictBatch uid pc pl rest

/-- The two model types served by the loader. -/
inductive ModelType | churn | ltv
deriving DecidableEq

/-- The six artifact files `load_all_models` reads, in load order:
`churn_model`, `churn_scaler`, `churn_features`, `ltv_model`,
`ltv_scaler`, `ltv_features` (model_loader.py:27-35). -/
inductive ArtifactKey
  | churnModel | churnScaler | churnFeatures
  | ltvModel | ltvScaler | ltvFeatures
deriving DecidableEq

/-- The filesystem seen by `_load_model`: for each artifact key, `some`
content when the `.pkl` file exists, `none` when it is missing (in which
case `_load_model` raises `FileNotFoundError`).  Artifact contents are
abstract (`α`). -/
def ArtifactFiles (α : Type) : Type := ArtifactKey → Option α

/-- The mutable state of a `ModelLoader`: the `models`, `scalers` and
`feature_names` dicts keyed by model type (model_loader.py:17-19). -/
structure LoaderState (α : Type) where
  models : ModelType → Option α
  scalers : ModelType → Option α
  feature_names : ModelType → Option α

/-- Embeds `ModelLoader.__init__`: all three dicts start empty. -/
def initialLoaderState {α : Type} : LoaderState α :=
  { models := fun _ => none, scalers := fun _ => none, feature_names := fun _ => none }

/-- Embeds `ModelLoader.load_all_models` (model_loader.py:21-43): load the six
artifacts in order, storing each into its dict as it is read; the first
missing file raises, the `except` clause catches it and returns `False`,
leaving the dicts as mutated so far.  Returns `(success, final state)`. -/
def loadAllModels {α : Type} (files : ArtifactFiles α) (s : LoaderState α) :
    Bool × LoaderState α :=
  match files ArtifactKey.churnModel with
  | none => (false, s)
  | some cm =>
    let s := { s with models := fun t => if t = ModelType.churn then some cm else s.models t }
    match files ArtifactKey.churnScaler with
    | none => (false, s)
    | some cs =>
      let s := { s with scalers := fun t => if t = ModelType.churn then some cs else s.scalers t }
      match files ArtifactKey.churnFeatures with
      | none => (false, s)
      | some cf =>
        let s := { s with feature_names := fun t => if t = ModelType.churn then some cf else s.feature_names t }
        match files ArtifactKey.ltvModel with
        | none => (false, s)
        | some lm =>
          let s := { s with models := fun t => if t = ModelType.ltv then some lm else s.models t }
          match files ArtifactKey.ltvScaler with
          | none => (false, s)
          | some ls =>
            let s := { s with scalers := fun t => if t = ModelType.ltv then some ls else s.scalers t }
            match files ArtifactKey.ltvFeatures with
            | none => (false, s)
            | some lf =>
              let s := { s with feature_names := fun t => if t = ModelType.ltv then some lf else s.feature_names t }
              (true, s)

/-- Embeds `ModelLoader.get_model`: `self.models.get(model_type)`. -/
def getModel {α : Type} (s : LoaderState α) (t : ModelType) : Option α := s.models t

/-- Embeds `ModelLoader.get_scaler`: `self.scalers.get(model_type)`. -/
def getScaler {α : Type} (s : LoaderState α) (t : ModelType) : Option α := s.scalers t

/-- Embeds `ModelLoader.get_feature_names`: `self.feature_names.get(model_type)`. -/
def getFeatureNames {α : Type} (s : LoaderState α) (t : ModelType) : Option α :=
  s.feature_names t

/-- One row of the raw dataframe fed to
`FeatureEngineer.calculate_all_features`, restricted to the columns the
derivation reads (feature_engineering.py:21-92). -/
structure RawRecord where
  running_sessions_count : ℚ
  runs_last_30_days : ℚ
  runs_last_90_days : ℚ
  distance_last_30_days_km : ℚ
  distance_last_90_days_km : ℚ
  days_since_last_run : ℚ
  days_on_platform : ℚ
  avg_pace_min_per_km : ℚ
  achievement_count : ℚ
  has_biometrics : ℚ
  membership_type_id : ℚ
  race_participation_count : ℚ
deriving DecidableEq

/-- Embeds `FeatureEngineer._calculate_engagement_score`
(feature_engineering.py:94-130): weighted sum of clipped activity
components, scaled to 0-100 and rounded to 2 decimals. -/
def engagementScore (r : RawRecord) : ℚ :=
  let runs_norm := clip 0 1 (r.runs_last_90_days / 30)
  let distance_norm := clip 0 1 (r.distance_last_90_days_km / 500)
  let achievements_norm := clip 0 1 (r.achievement_count / 20)
  let biometrics_norm := r.has_biometrics
  let races_norm := clip 0 1 (r.race_participation_count / 10)
  round2 ((runs_norm * (35/100) + distance_norm * (25/100)
    + achievements_norm * (20/100) + biometrics_norm * (10/100)
    + races_norm * (10/100)) * 100)

/-- Embeds `days_inactive_ratio` (feature_engineering.py:41-44):
`days_since_last_run / days_on_platform.replace(0, 1)`, clipped to
[0, 1].  `.replace(0, 1)` substitutes 1 only for an exact zero. -/
def daysInactiveRatio (r : RawRecord) : ℚ :=
  clip 0 1 (r.days_since_last_run
    / (if r.days_on_platform = 0 then 1 else r.days_on_platform))

/-- Embeds `FeatureEngineer._calculate_consistency_score`
(feature_engineering.py:132-150): `np.where(avg_90d > 0,
1 - |avg_30d - avg_90d| / avg_90d, 0)` clipped to [0, 1], rounded to 4
decimals, where `avg_90d = runs_last_90_days / 3`. -/
def consistencyScore (r : RawRecord) : ℚ :=
  let avg_30d := r.runs_last_30_days
  let avg_90d := r.runs_last_90_days / 3
  round4 (clip 0 1 (if avg_90d > 0 then 1 - |avg_30d - avg_90d| / avg_90d else 0))

/-- Embeds `monthly_activity_rate` (feature_engineering.py:55-58):
`running_sessions_count / (days_on_platform / 30).replace(0, 1)`,
clipped to [0, 50].  `.replace(0, 1)` substitutes 1 only when
`days_on_platform / 30` is exactly zero. -/
def monthlyActivityRate (r : RawRecord) : ℚ :=
  let d := r.days_on_platform / 30
  clip 0 50 (r.running_sessions_count / (if d = 0 then 1 else d))

/-- The formula the spec states for `monthly_activity_rate`:
`clip(total_sessions / max(days_on_platform/30, 1), 0, 50)`.  Stated
verbatim from the spec so it can be compared with the source's
`monthlyActivityRate`. -/
def specMonthlyActivityRate (r : RawRecord) : ℚ :=
  clip 0 50 (r.running_sessions_count / max (r.days_on_platform / 30) 1)

/-- Embeds `distance_trend` (feature_engineering.py:60-68): relative change of
the 30-day distance against the 90-day distance normalised to 30 days,
0 when the latter is not positive, clipped to [-1, 1]. -/
def distanceTrend (r : RawRecord) : ℚ :=
  let avg_30d := r.distance_last_30_days_km
  let avg_90d := r.distance_last_90_days_km / 3
  clip (-1) 1 (if avg_90d > 0 then (avg_30d - avg_90d) / avg_90d else 0)

/-- Embeds `is_premium` (feature_engineering.py:72): `(membership_type_id > 1)`
as an int. -/
def isPremium (r : RawRecord) : ℤ :=
  if r.membership_type_id > 1 then 1 else 0

/-- Embeds the `activity_level` binning (feature_engineering.py:76-80):
`pd.cut(x, bins=[-1, 0, 5, 20, 50, inf], labels=[0, 1, 2, 3, 4])` with
right-closed intervals; a value outside every bin becomes NaN (`none`). -/
def activityLevelCut (x : ℚ) : Option ℤ :=
  if -1 < x ∧ x ≤ 0 then some 0
  else if 0 < x ∧ x ≤ 5 then some 1
  else if 5 < x ∧ x ≤ 20 then some 2
  else if 20 < x ∧ x ≤ 50 then some 3
  else if 50 < x then some 4
  else none

/-- Embeds the `pace_category` binning (feature_engineering.py:84-88):
`pd.cut(x, bins=[0, 5, 6, 7, 8, inf], labels=[4, 3, 2, 1, 0])` with
right-closed intervals open on the left, so `x ≤ 0` falls outside every
bin and becomes NaN (`none`). -/
def paceCategoryCut (x : ℚ) : Option ℤ :=
  if 0 < x ∧ x ≤ 5 then some 4
  else if 5 < x ∧ x ≤ 6 then some 3
  else if 6 < x ∧ x ≤ 7 then some 2
  else if 7 < x ∧ x ≤ 8 then some 1
  else if 8 < x then some 0
  else none

/-- The eight derived columns `calculate_all_features` adds. -/
structure DerivedFeatures where
  engagement_score : ℚ
  days_inactive_rate : ℚ
  consistency_score : ℚ
  monthly_activity_rate : ℚ
  distance_trend : ℚ
  is_premium : ℤ
  activity_level : ℤ
  pace_category : ℤ
deriving DecidableEq

/-- Embeds `FeatureEngineer.calculate_all_features` (feature_engineering.py:21-92)
on one row.  The two `pd.cut(...).astype(int)` steps raise a
`ValueError` when the value falls outside every bin (the cut yields NaN,
which cannot be converted to int); this is the derivation's only failure
mode and is modelled by `Except.error`. -/
def calculateAllFeatures (r : RawRecord) : Except String DerivedFeatures :=
  match activityLevelCut r.running_sessions_count with
  | none => Except.error "activity_level: cannot convert NaN to integer"
  | some al =>
    match paceCategoryCut r.avg_pace_min_per_km with
    | none => Except.error "pace_category: cannot convert NaN to integer"
    | some pc =>
      Except.ok
        { engagement_score := engagementScore r
          days_inactive_rate := daysInactiveRatio r
          consistency_score := consistencyScore r
          monthly_activity_rate := monthlyActivityRate r
          distance_trend := distanceTrend r
          is_premium := isPremium r
          activity_level := al
          pace_category := pc }

/-- Row 3 of the sample dataframe in feature_engineering.py's
`__main__` self-test (feature_engineering.py:246-269), restricted to the
columns the derivation reads; note `avg_pace_min_per_km = 0`. -/
def sampleUser3 : RawRecord :=
  { running_sessions_count := 2
    runs_last_30_days := 0
    runs_last_90_days := 2
    distance_last_30_days_km := 0
    distance_last_90_days_km := 20
    days_since_last_run := 90
    days_on_platform := 90
    avg_pace_min_per_km := 0
    achievement_count := 0
    has_biometrics := 0
    membership_type_id := 1
    race_participation_count := 0 }

/-- A concrete filesystem in which every churn artifact exists but the
`ltv_model` file is missing (the LTV scaler and feature files exist). -/
def missingLtvModelFiles : ArtifactFiles ℕ := fun k =>
  match k with
  | ArtifactKey.ltvModel => none
  | _ => some 0

/-- A user 15 days on the platform with 10 recorded sessions: a platform
age strictly between 0 and 30 days. -/
def shortTenureRecord : RawRecord :=
  { running_sessions_count := 10
    runs_last_30_days := 10
    runs_last_90_days := 10
    distance_last_30_days_km := 50
    distance_last_90_days_km := 50
    days_since_last_run := 1
    days_on_platform := 15
    avg_pace_min_per_km := 6
    achievement_count := 2
    has_biometrics := 1
    membership_type_id := 1
    race_participation_count := 0 }

/-- A user 60 days on the platform with 5 recorded sessions. -/
def steadyRecord : RawRecord :=
  { running_sessions_count := 5
    runs_last_30_days := 2
    runs_last_90_days := 5
    distance_last_30_days_km := 20
    distance_last_90_days_km := 50
    days_since_last_run := 3
    days_on_platform := 60
    avg_pace_min_per_km := 7
    achievement_count := 1
    has_biometrics := 0
    membership_type_id := 2
    race_participation_count := 1 }

/-- A concrete churn artifact: constant class-1 probability 1/2, constant
label 0, no feature importances. -/
def constChurnModel : ChurnModel :=
  { predictProba := fun _ => 1/2
    predictLabel := fun _ => 0
    featureImportances := none }

/-- The identity scaler. -/
def idScaler : Scaler := fun xs => xs

end LtvChurn

namespace LtvChurn

/-- Membership in `insertByScore`. -/
theorem mem_insertByScore {a e : FIEntry} :
    ∀ {l : List FIEntry}, a ∈ insertByScore e l ↔ a = e ∨ a ∈ l
  | [] => by simp [insertByScore]
  | f :: fs => by
    by_cases h : f.importance_score ≤ e.importance_score
    · simp [insertByScore, h]
    · simp only [insertByScore, if_neg h, List.mem_cons, mem_insertByScore (l := fs)]
      tauto

/-- Membership in the descending sort. -/
theorem mem_sortByScoreDesc {a : FIEntry} :
    ∀ {l : List FIEntry}, a ∈ sortByScoreDesc l ↔ a ∈ l
  | [] => Iff.rfl
  | f :: fs => by
    simp only [sortByScoreDesc, List.foldr_cons, List.mem_cons]
    rw [show List.foldr insertByScore [] fs = sortByScoreDesc fs from rfl] at *
    rw [mem_insertByScore, mem_sortByScoreDesc (l := fs)]

/-- Inserting preserves descending order. -/
theorem pairwise_insertByScore {e : FIEntry} :
    ∀ {l : List FIEntry},
      l.Pairwise (fun x y => y.importance_score ≤ x.importance_score) →
      (insertByScore e l).Pairwise (fun x y => y.importance_score ≤ x.importance_score)
  | [], _ => by simp [insertByScore]
  | f :: fs, h => by
    rw [List.pairwise_cons] at h
    by_cases hc : f.importance_score ≤ e.importance_score
    · rw [insertByScore, if_pos hc, List.pairwise_cons]
      refine ⟨fun x hx => ?_, List.pairwise_cons.2 h⟩
      rcases List.mem_cons.1 hx with rfl | hx
      · exact hc
      · exact le_trans (h.1 x hx) hc
    · rw [insertByScore, if_neg hc, List.pairwise_cons]
      refine ⟨fun x hx => ?_, pairwise_insertByScore h.2⟩
      rcases mem_insertByScore.1 hx with rfl | hx
      · exact le_of_lt (lt_of_not_le hc)
      · exact h.1 x hx

/-- The sort output is in descending score order. -/
theorem pairwise_sortByScoreDesc :
    ∀ (l : List FIEntry),
      (sortByScoreDesc l).Pairwise (fun x y => y.importance_score ≤ x.importance_score)
  | [] => List.Pairwise.nil
  | f :: fs => pairwise_insertByScore (pairwise_sortByScoreDesc fs)

/-- C4: feature alignment (`_prepare_features`) produces a vector of
exactly the expected length, whose i-th element is the dict value at the
i-th expected name (0 when absent), and which depends only on the dict's
values at the expected names — extra dict entries are dropped silently. -/
theorem prepare_features_aligned (d : FeatDict) (feature_names : List String) :
    (prepareFeatures d feature_names).length = feature_names.length
    ∧ (∀ (i : ℕ) (n : String), feature_names.get? i = some n →
        (prepareFeatures d feature_names).get? i = some ((List.lookup n d).getD 0))
    ∧ (∀ d2 : FeatDict, (∀ n ∈ feature_names, List.lookup n d = List.lookup n d2) →
        prepareFeatures d feature_names = prepareFeatures d2 feature_names) := by
  refine ⟨List.length_map _ _, fun i n hn => ?_, fun d2 hagree => ?_⟩
  · rw [prepareFeatures, List.get?_map, hn]
    rfl
  · exact List.map_congr_left (fun n hn => by simp [dictGet, hagree n hn])

/-- Witness for C4 at a concrete dict and name list. -/
theorem prepare_features_aligned_witness :
    (prepareFeatures [("a", 3), ("z", 9)] ["a", "b"]).get? 1 = some 0 :=
  (prepare_features_aligned [("a", 3), ("z", 9)] ["a", "b"]).2.1 1 "b" rfl

/-- Inserting adds one to the length. -/
theorem length_insertByScore (e : FIEntry) :
    ∀ (l : List FIEntry), (insertByScore e l).length = l.length + 1
  | [] => rfl
  | f :: fs => by
    by_cases h : f.importance_score ≤ e.importance_score <;>
      simp [insertByScore, h, length_insertByScore e fs]

/-- Sorting preserves the length. -/
theorem length_sortByScoreDesc :
    ∀ (l : List FIEntry), (sortByScoreDesc l).length = l.length
  | [] => rfl
  | f :: fs => by
    have : sortByScoreDesc (f :: fs) = insertByScore f (sortByScoreDesc fs) := rfl
    rw [this, length_insertByScore, length_sortByScoreDesc fs, List.length_cons]

/-- C2: `predict_churn` reads the class-1 probability `p` of the scaled
vector from the model; `risk_level` is `HIGH` iff `p ≥ 0.7`, `MEDIUM`
iff `0.4 ≤ p < 0.7` and `LOW` iff `p < 0.4` (so exactly 0.7 is `HIGH`,
exactly 0.4 is `MEDIUM`, 0.399999 is `LOW`); the reported probability is
`p` and the reported `confidence_score` is `max(p, 1-p)`, each rounded
to the 4 decimal places the engine reports floats with. -/
theorem predict_churn_thresholds (model : ChurnModel) (scaler : Scaler)
    (feature_names : List String) (model_version : String)
    (features_dict : FeatDict) (now : ℕ) :
    let p := model.predictProba (scaler (prepareFeatures features_dict feature_names))
    let r := predictChurn model scaler feature_names model_version features_dict now
    (r.risk_level = RiskLevel.HIGH ↔ 7/10 ≤ p)
    ∧ (r.risk_level = RiskLevel.MEDIUM ↔ 4/10 ≤ p ∧ p < 7/10)
    ∧ (r.risk_level = RiskLevel.LOW ↔ p < 4/10)
    ∧ r.probability = round4 p
    ∧ r.confidence_score = round4 (max p (1 - p)) := by
  intro p r
  have hr : r.risk_level =
      if p ≥ 7/10 then RiskLevel.HIGH
      else if p ≥ 4/10 then RiskLevel.MEDIUM
      else RiskLevel.LOW := rfl
  refine ⟨?_, ?_, ?_, rfl, rfl⟩ <;> rw [hr] <;>
    split_ifs with h1 h2 <;>
    simp_all <;> intros <;> linarith

/-- C3: `predict_ltv` clamps the regression output to
`v = max(model.predict(scaled), 0)` and categorises it: `HIGH` iff
`v ≥ 500`, `MEDIUM` iff `200 ≤ v < 500`, `LOW` iff `0 < v < 200`, `ZERO`
iff `v = 0`; the reported `ltv_value` is `v` rounded to 2 decimals. -/
theorem predict_ltv_thresholds (model : LtvModel) (scaler : Scaler)
    (feature_names : List String) (model_version : String)
    (features_dict : FeatDict) (now : ℕ) :
    let v := max (model.predictValue (scaler (prepareFeatures features_dict feature_names))) 0
    let r := predictLtv model scaler feature_names model_version features_dict now
    (r.ltv_category = LtvCategory.HIGH ↔ 500 ≤ v)
    ∧ (r.ltv_category = LtvCategory.MEDIUM ↔ 200 ≤ v ∧ v < 500)
    ∧ (r.ltv_category = LtvCategory.LOW ↔ 0 < v ∧ v < 200)
    ∧ (r.ltv_category = LtvCategory.ZERO ↔ v = 0)
    ∧ r.ltv_value = round2 v := by
  intro v r
  have hv : 0 ≤ v := le_max_right _ _
  have hr : r.ltv_category =
      if v ≥ 500 then LtvCategory.HIGH
      else if v ≥ 200 then LtvCategory.MEDIUM
      else if v > 0 then LtvCategory.LOW
      else LtvCategory.ZERO := rfl
  refine ⟨?_, ?_, ?_, ?_, rfl⟩ <;> rw [hr] <;>
    split_ifs with h1 h2 h3 <;>
    simp_all <;> intros <;> try linarith

/-- C5 counterexample: with importances `[0.1, 0.9]` for features
`["a", "b"]`, the returned list is descending (`b` first) but the rank
fields read `[2, 1]` — the rank recorded for each entry is its 1-based
position in the ORIGINAL feature order, assigned before sorting
(prediction_engine.py:196 runs inside the enumeration loop, line 200
sorts afterwards), not its position in the descending order, which the
claim would require to be `[1, 2]`. -/
theorem calc_fi_rank_counterexample :
    ((calculateFeatureImportance (some [1/10, 9/10]) ["a", "b"] [0, 0]).map
        (fun e => e.rank)) = [2, 1]
    ∧ ((calculateFeatureImportance (some [1/10, 9/10]) ["a", "b"] [0, 0]).map
        (fun e => e.rank)) ≠ [1, 2] := by
  constructor <;>
    norm_num [calculateFeatureImportance, mkEntries, sortByScoreDesc,
      insertByScore, round4, List.enum, List.enumFrom]

/-- C5 (amended): when the model exposes no importances the list is
empty; otherwise the list pairs each feature with its value and rounded
importance, is sorted in descending order of importance score, keeps at
most the top 10 entries, and each entry's `rank` is the 1-based position
of its feature in the original (pre-sort) feature order, not in the
descending order. -/
theorem calculate_feature_importance_spec (feature_names : List String)
    (imps xrow : List ℚ) :
    calculateFeatureImportance none feature_names xrow = []
    ∧ (calculateFeatureImportance (some imps) feature_names xrow).length
        = min 10 (feature_names.zip imps).length
    ∧ (calculateFeatureImportance (some imps) feature_names xrow).Pairwise
        (fun x y => y.importance_score ≤ x.importance_score)
    ∧ ∀ e ∈ calculateFeatureImportance (some imps) feature_names xrow,
        ∃ p ∈ (feature_names.zip imps).enum,
          e = { feature_name := p.2.1
                feature_value := xrow.getD p.1 0
                importance_score := round4 p.2.2
                rank := p.1 + 1 } := by
  refine ⟨rfl, ?_, ?_, fun e he => ?_⟩
  · rw [calculateFeatureImportance, List.length_take, length_sortByScoreDesc,
      mkEntries, List.length_map, List.enum_length]
  · exact List.Pairwise.sublist (List.take_sublist _ _) (pairwise_sortByScoreDesc _)
  · have h1 : e ∈ sortByScoreDesc (mkEntries feature_names imps xrow) :=
      List.mem_of_mem_take he
    have h2 : e ∈ mkEntries feature_names imps xrow := mem_sortByScoreDesc.1 h1
    obtain ⟨p, hp, hpe⟩ := List.mem_map.1 h2
    exact ⟨p, hp, hpe.symm⟩

/-- Witness for C5's amended theorem at a concrete model: the first
(highest-importance) entry of the output originates from index 1 of the
enumeration, carrying `rank = 2`. -/
theorem calculate_feature_importance_spec_witness :
    ∃ p ∈ ((["a", "b"].zip [(1 : ℚ)/10, 9/10]).enum),
      ({ feature_name := "b", feature_value := 0, importance_score := 9/10,
         rank := 2 } : FIEntry)
        = { feature_name := p.2.1
            feature_value := ([(0 : ℚ), 0]).getD p.1 0
            importance_score := round4 p.2.2
            rank := p.1 + 1 } :=
  (calculate_feature_importance_spec ["a", "b"] [1/10, 9/10] [0, 0]).2.2.2
    _ (by
      norm_num [calculateFeatureImportance, mkEntries, sortByScoreDesc,
        insertByScore, round4, List.enum, List.enumFrom])

/-- Equality under `projFI` gives equal scores. -/
theorem score_eq_of_projFI_eq {a b : FIEntry} (h : projFI a = projFI b) :
    a.importance_score = b.importance_score :=
  congrArg (fun q => q.2.1) h

/-- Insertion commutes with the name/score/rank projection. -/
theorem projFI_insertByScore {a b : FIEntry} (hab : projFI a = projFI b) :
    ∀ {l1 l2 : List FIEntry}, l1.map projFI = l2.map projFI →
      (insertByScore a l1).map projFI = (insertByScore b l2).map projFI
  | [], [] => fun _ => by simp [insertByScore, hab]
  | [], g :: gs => fun h => absurd h (by simp)
  | f :: fs, [] => fun h => absurd h (by simp)
  | f :: fs, g :: gs => fun h => by
    rw [List.map_cons, List.map_cons] at h
    injection h with hfg htl
    have hsc : f.importance_score = g.importance_score := score_eq_of_projFI_eq hfg
    have hsab : a.importance_score = b.importance_score := score_eq_of_projFI_eq hab
    by_cases hc : f.importance_score ≤ a.importance_score
    · rw [insertByScore, if_pos hc, insertByScore, if_pos (by rw [← hsc, ← hsab]; exact hc)]
      simp [hab, hfg, htl]
    · rw [insertByScore, if_neg hc, insertByScore, if_neg (by rw [← hsc, ← hsab]; exact hc)]
      simp [hfg, projFI_insertByScore hab htl]

/-- Sorting commutes with the name/score/rank projection. -/
theorem projFI_sortByScoreDesc :
    ∀ {l1 l2 : List FIEntry}, l1.map projFI = l2.map projFI →
      (sortByScoreDesc l1).map projFI = (sortByScoreDesc l2).map projFI
  | [], [] => fun _ => rfl
  | [], g :: gs => fun h => absurd h (by simp)
  | f :: fs, [] => fun h => absurd h (by simp)
  | f :: fs, g :: gs => fun h => by
    rw [List.map_cons, List.map_cons] at h
    injection h with hfg htl
    exact projFI_insertByScore hfg (projFI_sortByScoreDesc htl)

/-- C10: for a fixed model, the `(feature_name, importance_score, rank)`
triples of the returned importance list — everything except
`feature_value` — are identical, in identical order, for any two input
rows: the list's shape depends only on the model's importances and
feature names, never on the record being scored. -/
theorem feature_importance_input_independent (importances : Option (List ℚ))
    (feature_names : List String) (x1 x2 : List ℚ) :
    (calculateFeatureImportance importances feature_names x1).map projFI
      = (calculateFeatureImportance importances feature_names x2).map projFI := by
  cases importances with
  | none => rfl
  | some imps =>
    rw [calculateFeatureImportance, calculateFeatureImportance,
      List.map_take, List.map_take]
    have hmk : (mkEntries feature_names imps x1).map projFI
        = (mkEntries feature_names imps x2).map projFI := by
      rw [mkEntries, mkEntries, List.map_map, List.map_map]
      exact List.map_congr_left (fun p _ => rfl)
    rw [projFI_sortByScoreDesc hmk]

/-- C1: `predict_batch` returns one entry per input record, in input
order, and the entry at index i is fully determined by record i alone:
the loop body applied to that record — the success entry when both
predictions succeed, the error entry carrying the record's `user_id`
when either raises.  In particular a failure on record i never disturbs
records i+1..n. -/
theorem predict_batch_isolated {ρ υ γ δ : Type} (uid : ρ → Option υ)
    (pc : ρ → Except String γ) (pl : ρ → Except String δ) (records : List ρ) :
    (predictBatch uid pc pl records).length = records.length
    ∧ ∀ (i : ℕ) (r : ρ), records.get? i = some r →
        (predictBatch uid pc pl records).get? i
          = some (processRecord uid pc pl r) := by
  constructor
  · induction records with
    | nil => rfl
    | cons r rest ih => simpa [predictBatch] using ih
  · intro i r h
    induction records generalizing i with
    | nil => simp at h
    | cons hd tl ih =>
      cases i with
      | zero =>
        rw [List.get?_cons_zero] at h
        cases h
        rfl
      | succ n =>
        rw [List.get?_cons_succ] at h
        exact ih n h

/-- Witness for C1: a batch of three numbered records where the churn
prediction raises exactly on record 1; its entry is the error marker
with that record's id, while records 0 and 2 still get their entries. -/
theorem predict_batch_isolated_witness :
    (predictBatch (fun n => some n)
        (fun n => if n = 1 then Except.error "bad field type" else Except.ok n)
        (fun n => Except.ok (n + 10)) [0, 1, 2]).get? 1
      = some (BatchEntry.err (some 1) "bad field type")
    ∧ (predictBatch (fun n => some n)
        (fun n => if n = 1 then Except.error "bad field type" else Except.ok n)
        (fun n => Except.ok (n + 10)) [0, 1, 2]).get? 2
      = some (BatchEntry.ok (some 2) 2 12) :=
  ⟨(predict_batch_isolated (fun n => some n)
      (fun n => if n = 1 then Except.error "bad field type" else Except.ok n)
      (fun n => Except.ok (n + 10)) [0, 1, 2]).2 1 1 rfl,
   (predict_batch_isolated (fun n => some n)
      (fun n => if n = 1 then Except.error "bad field type" else Except.ok n)
      (fun n => Except.ok (n + 10)) [0, 1, 2]).2 2 2 rfl⟩

/-- C6 counterexample: with every churn artifact file present and the
`ltv_model` file missing, `load_all_models` does return failure, but the
churn artifacts loaded before the failure are retained: `get_model`,
`get_scaler` and `get_feature_names` all report the churn artifacts as
loaded, contradicting the claim that afterwards neither model type is
considered loaded. -/
theorem load_all_models_counterexample :
    (loadAllModels missingLtvModelFiles initialLoaderState).1 = false
    ∧ getModel (loadAllModels missingLtvModelFiles initialLoaderState).2
        ModelType.churn = some 0
    ∧ getScaler (loadAllModels missingLtvModelFiles initialLoaderState).2
        ModelType.churn = some 0
    ∧ getFeatureNames (loadAllModels missingLtvModelFiles initialLoaderState).2
        ModelType.churn = some 0 :=
  ⟨rfl, rfl, rfl, rfl⟩

/-- C6 (amended): starting from a fresh loader, if any artifact file is
missing then `load_all_models` returns failure — but partial-load state
is retained: the churn model slot afterwards holds exactly what the
`churn_model` file contained (it stays loaded whenever that first file
was present, even though the overall load failed). -/
theorem load_all_models_retained_state {α : Type} (files : ArtifactFiles α)
    (hmiss : ∃ k, files k = none) :
    (loadAllModels files initialLoaderState).1 = false
    ∧ getModel (loadAllModels files initialLoaderState).2 ModelType.churn
        = files ArtifactKey.churnModel := by
  obtain ⟨k, hk⟩ := hmiss
  cases e1 : files ArtifactKey.churnModel with
  | none => exact ⟨by simp [loadAllModels, e1], by simp [loadAllModels, e1, getModel, initialLoaderState]⟩
  | some cm =>
    cases e2 : files ArtifactKey.churnScaler with
    | none => exact ⟨by simp [loadAllModels, e1, e2], by simp [loadAllModels, e1, e2, getModel]⟩
    | some cs =>
      cases e3 : files ArtifactKey.churnFeatures with
      | none => exact ⟨by simp [loadAllModels, e1, e2, e3], by simp [loadAllModels, e1, e2, e3, getModel]⟩
      | some cf =>
        cases e4 : files ArtifactKey.ltvModel with
        | none => exact ⟨by simp [loadAllModels, e1, e2, e3, e4], by simp [loadAllModels, e1, e2, e3, e4, getModel]⟩
        | some lm =>
          cases e5 : files ArtifactKey.ltvScaler with
          | none => exact ⟨by simp [loadAllModels, e1, e2, e3, e4, e5], by simp [loadAllModels, e1, e2, e3, e4, e5, getModel]⟩
          | some ls =>
            cases e6 : files ArtifactKey.ltvFeatures with
            | none => exact ⟨by simp [loadAllModels, e1, e2, e3, e4, e5, e6], by simp [loadAllModels, e1, e2, e3, e4, e5, e6, getModel]⟩
            | some lf => cases k <;> simp_all

/-- Witness for C6's amended theorem at the concrete filesystem missing
only the `ltv_model` file. -/
theorem load_all_models_retained_state_witness :
    (loadAllModels missingLtvModelFiles initialLoaderState).1 = false
    ∧ getModel (loadAllModels missingLtvModelFiles initialLoaderState).2
        ModelType.churn = missingLtvModelFiles ArtifactKey.churnModel :=
  load_all_models_retained_state missingLtvModelFiles ⟨ArtifactKey.ltvModel, rfl⟩

/-- C7: evaluating `calculate_all_features` on row 3 of the module's own
`__main__` sample data, which has `avg_pace_min_per_km = 0`: the
`pd.cut` pace bins `(0,5], (5,6], (6,7], (7,8], (8,∞)` exclude 0, the
cut yields NaN, and the subsequent `.astype(int)` raises — the
derivation is not total on well-typed input, contrary to the spec's
contract and to the module's own self-test, which expects this sample to
succeed. -/
theorem calculate_all_features_raises_on_zero_pace :
    calculateAllFeatures sampleUser3
      = Except.error "pace_category: cannot convert NaN to integer" := by
  norm_num [calculateAllFeatures, activityLevelCut, paceCategoryCut, sampleUser3]

/-- C8 counterexample: for a user 15 days on the platform with 10
sessions, the code computes `10 / (15/30) = 20` (the `.replace(0, 1)`
leaves the fractional month `15/30 = 0.5` untouched), while the claimed
formula `clip(sessions / max(days/30, 1), 0, 50)` gives `10 / 1 = 10`. -/
theorem monthly_activity_rate_counterexample :
    monthlyActivityRate shortTenureRecord = 20
    ∧ specMonthlyActivityRate shortTenureRecord = 10
    ∧ monthlyActivityRate shortTenureRecord
        ≠ specMonthlyActivityRate shortTenureRecord := by
  norm_num [monthlyActivityRate, specMonthlyActivityRate, shortTenureRecord,
    clip, min_def, max_def]

/-- C8 (amended): the derived `monthly_activity_rate` divides the session
count by `days_on_platform/30` with only an exact zero replaced by 1
(`.replace(0, 1)`), not by `max(days_on_platform/30, 1)`; the spec's
formula agrees with the code exactly when `days_on_platform` is 0 or at
least 30, and for platform ages strictly between 0 and 30 days the code
divides by the fractional month instead of 1. -/
theorem monthly_activity_rate_amended (r : RawRecord)
    (h : r.days_on_platform = 0 ∨ 30 ≤ r.days_on_platform) :
    monthlyActivityRate r = specMonthlyActivityRate r := by
  rcases h with h | h
  · simp [monthlyActivityRate, specMonthlyActivityRate, h, max_eq_right
      (by norm_num : (0:ℚ) ≤ 1)]
  · have hd : (0:ℚ) < r.days_on_platform / 30 := by positivity
    have h1 : (1:ℚ) ≤ r.days_on_platform / 30 := by
      rw [le_div_iff (by norm_num : (0:ℚ) < 30)]
      linarith
    rw [monthlyActivityRate, specMonthlyActivityRate, max_eq_left h1]
    simp [ne_of_gt hd]

/-- Witness for C8's amended theorem at a 60-day user. -/
theorem monthly_activity_rate_amended_witness :
    monthlyActivityRate steadyRecord = specMonthlyActivityRate steadyRecord :=
  monthly_activity_rate_amended steadyRecord (Or.inr (by norm_num [steadyRecord]))

/-- C9 counterexample: two calls to `predict_churn` with identical model,
scaler, feature names, version and feature dict but made at different
times produce result dicts that are NOT equal in every field: the
`predicted_at` field records `datetime.now()` at each call. -/
theorem predict_churn_not_bitwise_deterministic :
    predictChurn constChurnModel idScaler [] "v1.0.0" [] 0
      ≠ predictChurn constChurnModel idScaler [] "v1.0.0" [] 1 := by
  intro h
  exact absurd (congrArg ChurnResult.predicted_at h) (by decide)

/-- C9 (amended): `predict_churn` and `predict_ltv` are deterministic in
every field except `predicted_at`: two calls with identical inputs and
an unchanged artifact agree on every other field (and on all of them
when the timestamps coincide); only `predicted_at` reflects the call
time. -/
theorem predict_deterministic_up_to_timestamp (cm : ChurnModel)
    (lm : LtvModel) (scaler : Scaler) (feature_names : List String)
    (model_version : String) (features_dict : FeatDict) (t1 t2 : ℕ) :
    ((predictChurn cm scaler feature_names model_version features_dict t1).prediction
        = (predictChurn cm scaler feature_names model_version features_dict t2).prediction
      ∧ (predictChurn cm scaler feature_names model_version features_dict t1).probability
        = (predictChurn cm scaler feature_names model_version features_dict t2).probability
      ∧ (predictChurn cm scaler feature_names model_version features_dict t1).risk_level
        = (predictChurn cm scaler feature_names model_version features_dict t2).risk_level
      ∧ (predictChurn cm scaler feature_names model_version features_dict t1).confidence_score
        = (predictChurn cm scaler feature_names model_version features_dict t2).confidence_score
      ∧ (predictChurn cm scaler feature_names model_version features_dict t1).feature_importance
        = (predictChurn cm scaler feature_names model_version features_dict t2).feature_importance
      ∧ (predictChurn cm scaler feature_names model_version features_dict t1).model_version
        = (predictChurn cm scaler feature_names model_version features_dict t2).model_version)
    ∧ ((predictLtv lm scaler feature_names model_version features_dict t1).ltv_value
        = (predictLtv lm scaler feature_names model_version features_dict t2).ltv_value
      ∧ (predictLtv lm scaler feature_names model_version features_dict t1).ltv_category
        = (predictLtv lm scaler feature_names model_version features_dict t2).ltv_category
      ∧ (predictLtv lm scaler feature_names model_version features_dict t1).feature_importance
        = (predictLtv lm scaler feature_names model_version features_dict t2).feature_importance
      ∧ (predictLtv lm scaler feature_names model_version features_dict t1).model_version
        = (predictLtv lm scaler feature_names model_version features_dict t2).model_version) :=
  ⟨⟨rfl, rfl, rfl, rfl, rfl, rfl⟩, ⟨rfl, rfl, rfl, rfl⟩⟩

end LtvChurn
